import Mathlib

/-!
# Verification of the IMPAD session-telemetry core

Shallow embedding of the IMPAD repository's core components:

* `SessionLogger.py` / `src/core/session_logger.py` — the session telemetry
  log (`SessionLogger`): thread-serialized append/finalize operations over a
  `SessionData` record, persisted in full on every mutation.
* `sensor.py` / `src/sensors/active_window_monitor.py` — the activity sampler
  (`ActiveWindowMonitor`): window-title classification, the polling loop body,
  keyboard-inactivity tracking, and the hard-score computation.
* `src/main.py` — the orchestrator's verdict computation.

Real-valued quantities (`time.time()` differences, durations) are modelled as
rationals; Python `int(...)` truncation and Python's banker's `round(x, 2)`
are modelled explicitly below.
-/

namespace IMPAD

/-! ## Python numeric primitives -/

/-- Python `int(q)`: truncation toward zero. -/
def pyInt (q : ℚ) : ℤ :=
  if q < 0 then ⌈q⌉ else ⌊q⌋

/-- Python `round(q)` on an exact value: round-half-to-even (banker's
rounding) to the nearest integer. -/
def roundHalfEven (q : ℚ) : ℤ :=
  let f := ⌊q⌋
  let r := q - f
  if r < 1/2 then f
  else if 1/2 < r then f + 1
  else if Even f then f else f + 1

/-- Python `round(q, 2)`: round to two decimal places, ties to even. -/
def round2 (q : ℚ) : ℚ :=
  (roundHalfEven (q * 100) : ℚ) / 100

theorem roundHalfEven_ge_floor (q : ℚ) : ⌊q⌋ ≤ roundHalfEven q := by
  unfold roundHalfEven
  dsimp only
  split_ifs <;> omega

theorem roundHalfEven_le_floor_add_one (q : ℚ) : roundHalfEven q ≤ ⌊q⌋ + 1 := by
  unfold roundHalfEven
  dsimp only
  split_ifs <;> omega

theorem roundHalfEven_mono {q q' : ℚ} (h : q ≤ q') :
    roundHalfEven q ≤ roundHalfEven q' := by
  rcases lt_or_eq_of_le (Int.floor_mono h : ⌊q⌋ ≤ ⌊q'⌋) with hf | hf
  · calc roundHalfEven q ≤ ⌊q⌋ + 1 := roundHalfEven_le_floor_add_one q
    _ ≤ ⌊q'⌋ := by omega
    _ ≤ roundHalfEven q' := roundHalfEven_ge_floor q'
  · have hr : q - ⌊q⌋ ≤ q' - ⌊q'⌋ := by
      rw [← hf]; exact sub_le_sub_right h _
    unfold roundHalfEven
    dsimp only
    rw [← hf]
    split_ifs with h1 h2 h3 h4 h5 h6 h7 h8 h9 h10 h11 <;> try omega
    all_goals linarith

theorem round2_mono {q q' : ℚ} (h : q ≤ q') : round2 q ≤ round2 q' := by
  unfold round2
  have h100 := roundHalfEven_mono (show q * 100 ≤ q' * 100 by linarith)
  have hc : (roundHalfEven (q * 100) : ℚ) ≤ (roundHalfEven (q' * 100) : ℚ) := by
    exact_mod_cast h100
  linarith

/-- The value `round(q, 2)` is an integer number of hundredths. -/
theorem round2_hundredths (q : ℚ) : ∃ k : ℤ, round2 q * 100 = (k : ℚ) := by
  refine ⟨roundHalfEven (q * 100), ?_⟩
  unfold round2
  field_simp

/-! ## WindowStateClassifier (`ActiveWindowMonitor._classify_state`) -/

/-- The three activity states tracked by the sampler. -/
inductive WState where
  | CODING
  | RESEARCHING
  | IDLE
deriving DecidableEq, Repr

/-- Keyword list `self.keywords["CODING"]` from `sensor.py`. -/
def codingKeywords : List String :=
  ["code", "pycharm", "visual studio", "sublime", "vim", ".py", "main.py", "vscode"]

/-- Keyword list `self.keywords["RESEARCHING"]` from `sensor.py`. -/
def researchingKeywords : List String :=
  ["chrome", "firefox", "edge", "stack overflow", "google", "documentation", "gpt", "claude"]

/-- Python `str.lower()` on a character: ASCII letters are mapped to
lowercase (the window titles and keywords involved are ASCII). -/
def charLower (c : Char) : Char :=
  if 'A' ≤ c ∧ c ≤ 'Z' then Char.ofNat (c.toNat + 32) else c

/-- Python `title.lower()`. -/
def strLower (s : String) : String :=
  ⟨s.data.map charLower⟩

/-- Whether `needle` occurs at the start of `hay` (character lists). -/
def startsWithB : List Char → List Char → Bool
  | [], _ => true
  | _ :: _, [] => false
  | a :: as, b :: bs => a == b && startsWithB as bs

/-- Python's `needle in hay` substring test on character lists. -/
def containsB (needle : List Char) : List Char → Bool
  | [] => needle.isEmpty
  | c :: rest => startsWithB needle (c :: rest) || containsB needle rest

/-- Python `key in title` on strings. -/
def strContains (needle hay : String) : Bool :=
  containsB needle.data hay.data

/-- Method `_classify_state` of `ActiveWindowMonitor` in `sensor.py`: empty title is
IDLE; otherwise the title is lowercased and tested against the CODING
keyword list first, then the RESEARCHING list; the first loop that finds a
substring match returns its state, and no match falls through to IDLE. -/
def classify_state (title : String) : WState :=
  if title = "" then .IDLE
  else
    let t := strLower title
    if codingKeywords.any (fun key => strContains key t) then .CODING
    else if researchingKeywords.any (fun key => strContains key t) then .RESEARCHING
    else .IDLE

/-- Classifier as the spec describes it (§4.2): normalize to lowercase,
empty → IDLE, CODING on any CODING-keyword substring (priority tie-break),
else RESEARCHING on any RESEARCHING-keyword substring, else IDLE. -/
def classify_spec (title : String) : WState :=
  if title = "" then .IDLE
  else if codingKeywords.any (fun key => strContains key (strLower title)) then .CODING
  else if researchingKeywords.any (fun key => strContains key (strLower title)) then .RESEARCHING
  else .IDLE

/-! ## ScoringEngine (`ActiveWindowMonitor.calculate_hard_score`) -/

/-- The `self.stats` duration accumulator of `ActiveWindowMonitor`. -/
structure Stats where
  coding : ℚ
  researching : ℚ
  idle : ℚ
deriving DecidableEq, Repr

/-- Total duration `sum(self.stats.values())`. -/
def Stats.total (s : Stats) : ℚ :=
  s.coding + s.researching + s.idle

/-- Method `_calculate_inactivity_score` of `ActiveWindowMonitor` in `sensor.py`. -/
def calculate_inactivity_score (stats : Stats) (total_inactive_time : ℚ) : ℚ :=
  if total_inactive_time = 0 then 0
  else if stats.total = 0 then 0
  else
    let inactive_ratio := total_inactive_time / stats.total
    if 0.2 ≤ inactive_ratio ∧ inactive_ratio ≤ 0.4 then 5
    else if inactive_ratio < 0.1 then -3
    else if inactive_ratio > 0.6 then -10
    else 0

/-- Method `calculate_hard_score` of `ActiveWindowMonitor` in `sensor.py`. -/
def calculate_hard_score (stats : Stats) (total_inactive_time : ℚ) : ℤ :=
  let total_time := stats.total
  if total_time = 0 then 0
  else
    let productive_time := stats.coding + stats.researching
    let productivity_ratio := productive_time / total_time
    let coding_ratio := if productive_time > 0 then stats.coding / productive_time else 0
    let productivity_score := productivity_ratio * 50
    let balance_score : ℚ :=
      if 0.6 ≤ coding_ratio ∧ coding_ratio ≤ 0.8 then 50
      else if 0.4 ≤ coding_ratio ∧ coding_ratio < 0.6 then 35
      else if 0.8 < coding_ratio ∧ coding_ratio ≤ 1.0 then 40
      else 20
    let idle_penalty : ℚ := if stats.idle / total_time > 0.2 then -10 else 0
    let inactivity_adjustment := calculate_inactivity_score stats total_inactive_time
    let final_score := pyInt (productivity_score + balance_score + idle_penalty + inactivity_adjustment)
    max 0 (min 100 final_score)

/-! Spec-side scoring stages (§4.5 of the spec, stage by stage). -/

/-- Spec §4.5 stage 2: `productivity_score = productive/total * 50`. -/
def productivity_score_spec (stats : Stats) : ℚ :=
  (stats.coding + stats.researching) / stats.total * 50

/-- Spec §4.5 stage 3: `coding_ratio = coding/productive` when `productive > 0`, else 0. -/
def coding_ratio_spec (stats : Stats) : ℚ :=
  if stats.coding + stats.researching > 0 then
    stats.coding / (stats.coding + stats.researching)
  else 0

/-- Spec §4.5 stage 4: balance score by coding-ratio range. -/
def balance_score_spec (r : ℚ) : ℚ :=
  if 0.6 ≤ r ∧ r ≤ 0.8 then 50
  else if 0.4 ≤ r ∧ r < 0.6 then 35
  else if 0.8 < r ∧ r ≤ 1.0 then 40
  else 20

/-- Spec §4.5 stage 5: idle penalty `-10` iff `idle/total > 0.2`. -/
def idle_penalty_spec (stats : Stats) : ℚ :=
  if stats.idle / stats.total > 0.2 then -10 else 0

/-- Spec §4.5 stage 6: inactivity adjustment from
`inactive_ratio = total_inactive_seconds/total`, and 0 when no inactivity
was recorded. -/
def inactivity_adjustment_spec (stats : Stats) (total_inactive_seconds : ℚ) : ℚ :=
  if total_inactive_seconds = 0 then 0
  else
    let r := total_inactive_seconds / stats.total
    if 0.2 ≤ r ∧ r ≤ 0.4 then 5
    else if r < 0.1 then -3
    else if r > 0.6 then -10
    else 0

/-- Spec §4.5 stages 1 and 7: a zero total scores 0; otherwise the stage sum,
truncated to an integer and clamped to `[0, 100]`. -/
def score_spec (stats : Stats) (total_inactive_seconds : ℚ) : ℤ :=
  if stats.total = 0 then 0
  else
    max 0 (min 100 (pyInt (productivity_score_spec stats
      + balance_score_spec (coding_ratio_spec stats)
      + idle_penalty_spec stats
      + inactivity_adjustment_spec stats total_inactive_seconds)))

/-! ## ActivitySampler loop body and KeyboardActivityTracker (`sensor.py`) -/

/-- Method `_check_keyboard_inactivity` of `ActiveWindowMonitor`:
`time.time() - self.last_keystroke_time > 7.0`. -/
def check_keyboard_inactivity (now last_keystroke_time : ℚ) : Bool :=
  decide (now - last_keystroke_time > 7)

/-- The mutable state carried across iterations of `ActiveWindowMonitor.run`:
the loop locals `last_title` and `last_inactivity_state`, the instance
accumulators `stats`, `inactive_typing_periods` and `total_inactive_time`,
and the list of states passed to `self.logger.log_state` so far. -/
structure SamplerState where
  last_title : String
  last_inactivity_state : Bool
  stats : Stats
  inactive_typing_periods : ℕ
  total_inactive_time : ℚ
  loggedStates : List WState
deriving Repr

/-- Accumulation `self.stats[new_state] += interval`. -/
def Stats.bump (s : Stats) (w : WState) (interval : ℚ) : Stats :=
  match w with
  | .CODING => { s with coding := s.coding + interval }
  | .RESEARCHING => { s with researching := s.researching + interval }
  | .IDLE => { s with idle := s.idle + interval }

/-- Loop-local state at the top of `ActiveWindowMonitor.run`:
`last_title = ""`, `last_inactivity_state = False`, zeroed accumulators. -/
def samplerInit : SamplerState :=
  { last_title := ""
    last_inactivity_state := false
    stats := ⟨0, 0, 0⟩
    inactive_typing_periods := 0
    total_inactive_time := 0
    loggedStates := [] }

/-- One iteration of the `while self.running` loop of
`ActiveWindowMonitor.run` in `sensor.py`, with the sampled window `title`
and the keyboard clock readings as inputs: classify the title, update the
inactivity accumulators, log a STATE event exactly when the title changed,
and accumulate `interval` into the classified state's duration. -/
def samplerStep (interval : ℚ) (title : String) (now last_keystroke_time : ℚ)
    (s : SamplerState) : SamplerState :=
  let new_state := classify_state title
  let is_inactive := check_keyboard_inactivity now last_keystroke_time
  let inactive_typing_periods :=
    if is_inactive && !s.last_inactivity_state then s.inactive_typing_periods + 1
    else s.inactive_typing_periods
  let total_inactive_time :=
    if is_inactive then s.total_inactive_time + interval else s.total_inactive_time
  let loggedStates :=
    if title = s.last_title then s.loggedStates else s.loggedStates ++ [new_state]
  let new_last_title := if title = s.last_title then s.last_title else title
  { last_title := new_last_title
    last_inactivity_state := is_inactive
    stats := s.stats.bump new_state interval
    inactive_typing_periods := inactive_typing_periods
    total_inactive_time := total_inactive_time
    loggedStates := loggedStates }

/-! ## SessionTelemetryLog (`SessionLogger.py` / `src/core/session_logger.py`) -/

/-- JSON values, the codomain of Python's `json.dump` / `json.load`; event
payloads are opaque values of this type. -/
inductive Json where
  | null
  | bool (b : Bool)
  | num (q : ℚ)
  | str (s : String)
  | arr (elems : List Json)
  | obj (fields : List (String × Json))

/-- The `Event` dataclass of `SessionLogger.py`. -/
structure Event where
  ts : ℚ
  type : String
  payload : Json

/-- The `summary` mapping of `SessionData`: keys `hard_score`, `soft_score`
and `verdict`, as created by the dataclass default and by `finish_session`. -/
structure Summary where
  hard_score : ℤ
  soft_score : ℤ
  verdict : String

/-- The `SessionData` dataclass of `SessionLogger.py`. -/
structure SessionData where
  session_id : String
  candidate_id : String
  started_at : ℚ
  events : List Event
  ended_at : Option ℚ
  summary : Summary

/-- Serialization of one event, as `dataclasses.asdict` renders it
(field order `ts`, `type`, `payload`). -/
def eventToJson (e : Event) : Json :=
  .obj [("ts", .num e.ts), ("type", .str e.type), ("payload", e.payload)]

/-- Serialization of `ended_at` (`None` becomes JSON `null`). -/
def endedAtToJson : Option ℚ → Json
  | none => .null
  | some t => .num t

/-- Serialization of the summary mapping. -/
def summaryToJson (s : Summary) : Json :=
  .obj [("hard_score", .num s.hard_score), ("soft_score", .num s.soft_score),
        ("verdict", .str s.verdict)]

/-- Body of `json.dump(asdict(self.data), f)` in `SessionLogger._flush`:
the full record rendered to JSON in dataclass field order. -/
def serialize (d : SessionData) : Json :=
  .obj [("session_id", .str d.session_id),
        ("candidate_id", .str d.candidate_id),
        ("started_at", .num d.started_at),
        ("events", .arr (d.events.map eventToJson)),
        ("ended_at", endedAtToJson d.ended_at),
        ("summary", summaryToJson d.summary)]

/-- Reading back an integer score (Python ints are JSON numbers with
denominator 1). -/
def jsonToInt : Json → Option ℤ
  | .num q => if q.den = 1 then some q.num else none
  | _ => none

/-- Reading back one event from its JSON rendering. -/
def eventFromJson : Json → Option Event
  | .obj [("ts", .num q), ("type", .str t), ("payload", p)] => some ⟨q, t, p⟩
  | _ => none

/-- Reading back the event list. -/
def eventsFromJson : List Json → Option (List Event)
  | [] => some []
  | j :: rest =>
    match eventFromJson j, eventsFromJson rest with
    | some e, some es => some (e :: es)
    | _, _ => none

/-- Reading back `ended_at`. -/
def endedAtFromJson : Json → Option (Option ℚ)
  | .null => some none
  | .num t => some (some t)
  | _ => none

/-- Reading back the summary mapping. -/
def summaryFromJson : Json → Option Summary
  | .obj [("hard_score", h), ("soft_score", s), ("verdict", .str v)] =>
    match jsonToInt h, jsonToInt s with
    | some hi, some si => some ⟨hi, si, v⟩
    | _, _ => none
  | _ => none

/-- Deserialization of a persisted record (`json.load` plus reading the
`SessionRecord` shape); `none` on anything that is not a complete record. -/
def deserialize : Json → Option SessionData
  | .obj [("session_id", .str sid), ("candidate_id", .str cid),
          ("started_at", .num t0), ("events", .arr es),
          ("ended_at", ej), ("summary", sj)] =>
    match eventsFromJson es, endedAtFromJson ej, summaryFromJson sj with
    | some events, some ended, some summ => some ⟨sid, cid, t0, events, ended, summ⟩
    | _, _, _ => none
  | _ => none

/-- The logger together with its backing store: the in-memory `SessionData`
and the content of `session_log.json` (`none` models a file without a
complete record on it, as after a truncation or a failed write). -/
structure LoggerState where
  data : SessionData
  disk : Option Json

/-- Method `_flush` of `SessionLogger`: rewrite the whole serialized record.
`ok` is the storage oracle: when the write succeeds the disk holds the full
record and the call reports success; on a storage error the call reports
failure and the disk is left without a complete record (`open(path, "w")`
truncates before `json.dump` writes). The in-memory record is untouched in
both cases. -/
def flushRecord (ok : Bool) (s : LoggerState) : LoggerState × Bool :=
  if ok then ({ s with disk := some (serialize s.data) }, true)
  else ({ s with disk := none }, false)

/-- Disk states a concurrent reader can observe while `_flush` rewrites the
file in place: `open(self.filepath, "w")` first truncates the file, then
`json.dump` writes the serialized record. -/
def flushTrace (d : SessionData) : List (Option Json) :=
  [none, some (serialize d)]

/-- What a concurrent reader of the persisted file obtains: the deserialized
record, or `none` when no complete record is on disk. -/
def readDisk (o : Option Json) : Option SessionData :=
  o.bind deserialize

/-- Method `log_state` of `SessionLogger` (body under `self.lock`):
`ts = time.time() - started_at`, append `Event(round(ts, 2), "STATE",
{"state": state})`, flush. -/
def log_state (ok : Bool) (now : ℚ) (state : String) (s : LoggerState) :
    LoggerState × Bool :=
  let ts := now - s.data.started_at
  let event : Event := { ts := round2 ts, type := "STATE",
                         payload := .obj [("state", .str state)] }
  flushRecord ok { s with data := { s.data with events := s.data.events ++ [event] } }

/-- Method `log_clarity` of `SessionLogger` (body under `self.lock`). -/
def log_clarity (ok : Bool) (now : ℚ) (clarity_data : Json) (s : LoggerState) :
    LoggerState × Bool :=
  let ts := now - s.data.started_at
  let event : Event := { ts := round2 ts, type := "CLARITY", payload := clarity_data }
  flushRecord ok { s with data := { s.data with events := s.data.events ++ [event] } }

/-- Method `log_event` of `SessionLogger` (body under `self.lock`). -/
def log_event (ok : Bool) (now : ℚ) (event_type : String) (payload : Json)
    (s : LoggerState) : LoggerState × Bool :=
  let ts := now - s.data.started_at
  let event : Event := { ts := round2 ts, type := event_type, payload := payload }
  flushRecord ok { s with data := { s.data with events := s.data.events ++ [event] } }

/-- Method `finish_session` of `SessionLogger` (body under `self.lock`):
set `ended_at = now`, overwrite `summary`, flush. -/
def finish_session (ok : Bool) (now : ℚ) (hard_score soft_score : ℤ)
    (verdict : String) (s : LoggerState) : LoggerState × Bool :=
  let d := { s.data with
             ended_at := some now
             summary := ⟨hard_score, soft_score, verdict⟩ }
  flushRecord ok { s with data := d }

/-- Method `update_candidate_id` of `src/core/session_logger.py` (body under
`self.lock`): overwrite `candidate_id`, flush. -/
def update_candidate_id (ok : Bool) (new_id : String) (s : LoggerState) :
    LoggerState × Bool :=
  flushRecord ok { s with data := { s.data with candidate_id := new_id } }

/-- Construction of `SessionLogger(candidate_id)` at time `now`: fresh
record with empty event list, `PENDING` summary, and an initial flush. -/
def initLogger (session_id candidate_id : String) (now : ℚ) : LoggerState :=
  (flushRecord true
    { data := { session_id := session_id, candidate_id := candidate_id,
                started_at := now, events := [], ended_at := none,
                summary := ⟨0, 0, "PENDING"⟩ },
      disk := none }).1

/-- One mutating call on the logger, tagged with the wall-clock value
`time.time()` reads during it (all mutating calls are serialized by
`self.lock`, so a run of the system is a sequence of these). -/
inductive Op where
  | logState (now : ℚ) (state : String)
  | logClarity (now : ℚ) (clarity_data : Json)
  | logEvent (now : ℚ) (event_type : String) (payload : Json)
  | finishSession (now : ℚ) (hard_score soft_score : ℤ) (verdict : String)
  | updateCandidateId (new_id : String)

/-- Application of one operation with a healthy store. -/
def applyOp (s : LoggerState) : Op → LoggerState
  | .logState now state => (log_state true now state s).1
  | .logClarity now c => (log_clarity true now c s).1
  | .logEvent now t p => (log_event true now t p s).1
  | .finishSession now h sc v => (finish_session true now h sc v s).1
  | .updateCandidateId i => (update_candidate_id true i s).1

/-- Sequential application of a list of operations (the serialization the
lock imposes on concurrent producers). -/
def runOps (s : LoggerState) : List Op → LoggerState
  | [] => s
  | op :: rest => runOps (applyOp s op) rest

/-- The wall-clock reading of an operation, when it takes one. -/
def opNow : Op → Option ℚ
  | .logState now _ => some now
  | .logClarity now _ => some now
  | .logEvent now _ _ => some now
  | .finishSession now _ _ _ => some now
  | .updateCandidateId _ => none

/-- Whether an operation is a `finish_session` call. -/
def opIsFinish : Op → Bool
  | .finishSession _ _ _ _ => true
  | _ => false

/-- The relative timestamps of the recorded events, in order. -/
def tsListOf (s : LoggerState) : List ℚ :=
  s.data.events.map Event.ts

/-- Verdict computation of `src/main.py`:
`"PASS" if hard_score >= 60 else "FAIL"`. -/
def mainVerdict (hard_score : ℤ) : String :=
  if hard_score ≥ 60 then "PASS" else "FAIL"

/-! ## Round-trip and invariant lemmas for the logger -/

theorem eventFromJson_toJson (e : Event) : eventFromJson (eventToJson e) = some e := rfl

theorem eventsFromJson_map (es : List Event) :
    eventsFromJson (es.map eventToJson) = some es := by
  induction es with
  | nil => rfl
  | cons e rest ih => simp [eventsFromJson, eventFromJson_toJson, ih]

theorem endedAtFromJson_toJson (o : Option ℚ) :
    endedAtFromJson (endedAtToJson o) = some o := by
  cases o <;> rfl

theorem jsonToInt_intCast (n : ℤ) : jsonToInt (.num (n : ℚ)) = some n := by
  simp [jsonToInt, Rat.den_intCast, Rat.num_intCast]

theorem summaryFromJson_toJson (s : Summary) :
    summaryFromJson (summaryToJson s) = some s := by
  simp [summaryFromJson, summaryToJson, jsonToInt_intCast]

theorem deserialize_serialize (d : SessionData) :
    deserialize (serialize d) = some d := by
  simp [deserialize, serialize, eventsFromJson_map, endedAtFromJson_toJson,
    summaryFromJson_toJson]

theorem flushRecord_true (s : LoggerState) :
    flushRecord true s = ({ s with disk := some (serialize s.data) }, true) := rfl

theorem applyOp_disk_serialized (s : LoggerState) (op : Op) :
    (applyOp s op).disk = some (serialize (applyOp s op).data) := by
  cases op <;> rfl

theorem runOps_disk_serialized (ops : List Op) (s : LoggerState)
    (h : s.disk = some (serialize s.data)) :
    (runOps s ops).disk = some (serialize (runOps s ops).data) := by
  induction ops generalizing s with
  | nil => exact h
  | cons op rest ih => exact ih (applyOp s op) (applyOp_disk_serialized s op)

theorem applyOp_started_at (s : LoggerState) (op : Op) :
    (applyOp s op).data.started_at = s.data.started_at := by
  cases op <;> rfl

theorem applyOp_summary_of_not_finish (s : LoggerState) (op : Op)
    (h : opIsFinish op = false) :
    (applyOp s op).data.summary = s.data.summary := by
  cases op <;> first
  | rfl
  | exact absurd h (by simp [opIsFinish])

theorem runOps_summary_of_no_finish (ops : List Op) (s : LoggerState)
    (h : ops.all (fun op => !(opIsFinish op)) = true) :
    (runOps s ops).data.summary = s.data.summary := by
  induction ops generalizing s with
  | nil => rfl
  | cons op rest ih =>
    simp only [List.all_cons, Bool.and_eq_true, Bool.not_eq_true'] at h
    rw [runOps, ih (applyOp s op) (by simpa using h.2),
      applyOp_summary_of_not_finish s op h.1]

theorem chain'_le_append_singleton {l : List ℚ} {a : ℚ}
    (hl : List.Chain' (· ≤ ·) l) (ha : ∀ x ∈ l, x ≤ a) :
    List.Chain' (· ≤ ·) (l ++ [a]) := by
  rw [List.chain'_append]
  refine ⟨hl, List.chain'_singleton a, ?_⟩
  intro x hx y hy
  have hxl : x ∈ l := by
    rcases List.mem_getLast?_eq_getLast hx with ⟨hne, rfl⟩
    exact List.getLast_mem hne
  have hya : a = y := by simpa using hy
  exact hya ▸ ha x hxl

theorem runOps_ts_chain (ops : List Op) (s : LoggerState) (b : ℚ)
    (hchain : List.Chain' (· ≤ ·) (tsListOf s))
    (hbound : ∀ q ∈ tsListOf s, q ≤ round2 (b - s.data.started_at))
    (hclock : List.Chain' (· ≤ ·) (b :: ops.filterMap opNow)) :
    List.Chain' (· ≤ ·) (tsListOf (runOps s ops)) := by
  induction ops generalizing s b with
  | nil => exact hchain
  | cons op rest ih =>
    rw [runOps]
    rcases hop : opNow op with _ | now
    · have hts : tsListOf (applyOp s op) = tsListOf s := by
        cases op <;> simp_all [opNow, applyOp, update_candidate_id,
          flushRecord_true, tsListOf]
      have hst : (applyOp s op).data.started_at = s.data.started_at :=
        applyOp_started_at s op
      refine ih (applyOp s op) b (by rw [hts]; exact hchain) ?_ ?_
      · rw [hts, hst]; exact hbound
      · have : (op :: rest).filterMap opNow = rest.filterMap opNow := by
          simp [List.filterMap_cons, hop]
        rw [this] at hclock; exact hclock
    · have hbn : b ≤ now ∧
          List.Chain' (· ≤ ·) (now :: rest.filterMap opNow) := by
        have : (op :: rest).filterMap opNow = now :: rest.filterMap opNow := by
          simp [List.filterMap_cons, hop]
        rw [this] at hclock
        exact List.chain'_cons.mp hclock
      have hst : (applyOp s op).data.started_at = s.data.started_at :=
        applyOp_started_at s op
      have hround : round2 (b - s.data.started_at) ≤ round2 (now - s.data.started_at) :=
        round2_mono (by linarith [hbn.1])
      have hts : tsListOf (applyOp s op) = tsListOf s
            ∨ tsListOf (applyOp s op)
              = tsListOf s ++ [round2 (now - s.data.started_at)] := by
        cases op <;> simp_all [opNow, applyOp, log_state, log_clarity, log_event,
          finish_session, update_candidate_id, flushRecord_true, tsListOf]
      rcases hts with hts | hts
      · refine ih (applyOp s op) now (by rw [hts]; exact hchain) ?_ hbn.2
        rw [hts, hst]
        exact fun q hq => le_trans (hbound q hq) hround
      · refine ih (applyOp s op) now ?_ ?_ hbn.2
        · rw [hts]
          exact chain'_le_append_singleton hchain
            (fun x hx => le_trans (hbound x hx) hround)
        · rw [hts, hst]
          intro q hq
          rcases List.mem_append.mp hq with hq | hq
          · exact le_trans (hbound q hq) hround
          · simp at hq; exact le_of_eq hq

/-! ## Claim theorems: classifier and scoring -/

/-- C1: `calculate_hard_score` returns 0 on a zero total duration and
otherwise the truncated, clamped sum of the spec's four scoring stages
(productivity, balance, idle penalty, inactivity adjustment), and the
spec's worked example `{CODING: 30, RESEARCHING: 10, IDLE: 60}` with no
keyboard inactivity scores 60. -/
theorem hard_score_matches_spec :
    (∀ stats total_inactive_time,
      calculate_hard_score stats total_inactive_time
        = score_spec stats total_inactive_time)
    ∧ calculate_hard_score ⟨30, 10, 60⟩ 0 = 60 := by
  constructor
  · intro stats ti
    by_cases h : stats.total = 0 <;>
      simp [calculate_hard_score, score_spec, productivity_score_spec,
        coding_ratio_spec, balance_score_spec, idle_penalty_spec,
        inactivity_adjustment_spec, calculate_inactivity_score, h]
  · norm_num [calculate_hard_score, calculate_inactivity_score, Stats.total, pyInt]

/-- C4: the classifier agrees everywhere with the spec's description
(lowercase, empty → IDLE, CODING keywords first, then RESEARCHING, else
IDLE); `classify("")` is IDLE, `classify("using vscode and chrome")` is
CODING, and any title containing a CODING keyword classifies as CODING
regardless of RESEARCHING matches (the tie-break). -/
theorem classify_matches_spec :
    (∀ title, classify_state title = classify_spec title)
    ∧ classify_state "" = .IDLE
    ∧ classify_state "using vscode and chrome" = .CODING
    ∧ (∀ title, title ≠ "" →
        codingKeywords.any (fun key => strContains key (strLower title)) = true →
        classify_state title = .CODING) := by
  refine ⟨fun title => rfl, by decide, by decide, fun title h1 h2 => ?_⟩
  simp [classify_state, h1, h2]

/-- Witness for C4's conditional tie-break conjunct at a concrete title
containing keywords of both classes. -/
theorem classify_matches_spec_witness :
    ("vscode firefox" ≠ "" ∧
      codingKeywords.any (fun key => strContains key (strLower "vscode firefox")) = true)
    ∧ classify_state "vscode firefox" = .CODING :=
  ⟨⟨by decide, by decide⟩,
    classify_matches_spec.2.2.2 "vscode firefox" (by decide) (by decide)⟩

/-! ## Claim theorems: sampler loop -/

/-- C2 counterexample: starting from the loop's initial state, a tick
observing "chrome" then a tick observing "firefox" both append a STATE
event, although the classification (RESEARCHING) did not change between
the two ticks — the loop logs on title change, not classification change. -/
theorem state_logged_despite_same_classification :
    classify_state "firefox" = classify_state "chrome"
    ∧ (samplerStep 1 "firefox" 0 0 (samplerStep 1 "chrome" 0 0 samplerInit)).loggedStates
        = [.RESEARCHING, .RESEARCHING] := by
  constructor
  · decide
  · decide

/-- C2 (amended): within every iteration of the sampler loop, a STATE
event is appended if and only if the sampled title differs from the
previously observed title (`title != last_title`); when the title is
unchanged nothing is appended, and when it changed the classification of
the new title is logged even if it equals the previous classification. -/
theorem state_logged_iff_title_changed (interval : ℚ) (title : String)
    (now last_keystroke_time : ℚ) (s : SamplerState) :
    (samplerStep interval title now last_keystroke_time s).loggedStates
      = if title = s.last_title then s.loggedStates
        else s.loggedStates ++ [classify_state title] := rfl

/-- C9: the inactivity test is exactly `now - last_keystroke_at > 7.0`;
each tick increments `inactive_periods` by one exactly on a false-to-true
transition of the inactivity boolean, and adds `interval` to
`total_inactive_seconds` exactly on ticks where the boolean is true. -/
theorem keyboard_inactivity_behavior (interval : ℚ) (title : String)
    (now last_keystroke_time : ℚ) (s : SamplerState) :
    (check_keyboard_inactivity now last_keystroke_time = true
      ↔ now - last_keystroke_time > 7)
    ∧ (samplerStep interval title now last_keystroke_time s).inactive_typing_periods
        = s.inactive_typing_periods
          + (if check_keyboard_inactivity now last_keystroke_time = true
                ∧ s.last_inactivity_state = false then 1 else 0)
    ∧ (samplerStep interval title now last_keystroke_time s).total_inactive_time
        = s.total_inactive_time
          + (if check_keyboard_inactivity now last_keystroke_time = true
             then interval else 0) := by
  refine ⟨by simp [check_keyboard_inactivity], ?_, ?_⟩ <;>
    rcases hb : check_keyboard_inactivity now last_keystroke_time with _ | _ <;>
    rcases hl : s.last_inactivity_state with _ | _ <;>
    simp [samplerStep, hb, hl]

/-! ## Claim theorems: session telemetry log -/

/-- C3: over any serialized sequence of logger operations (the lock admits
one mutating call at a time, so concurrent producers yield such a
sequence), if the wall-clock values read by the operations are
non-decreasing, the `ts` values of the recorded events are non-decreasing. -/
theorem relative_ts_non_decreasing (ops : List Op)
    (session_id candidate_id : String) (t0 : ℚ)
    (hclock : List.Chain' (· ≤ ·) (ops.filterMap opNow)) :
    List.Chain' (· ≤ ·)
      (tsListOf (runOps (initLogger session_id candidate_id t0) ops)) := by
  apply runOps_ts_chain ops _ ((ops.filterMap opNow).headD t0)
  · simp [initLogger, flushRecord_true, tsListOf]
  · intro q hq
    simp [initLogger, flushRecord_true, tsListOf] at hq
  · rcases h : ops.filterMap opNow with _ | ⟨a, t⟩
    · simp
    · rw [h] at hclock
      simpa using List.chain'_cons.mpr ⟨le_refl a, hclock⟩

/-- Witness for C3 at a concrete two-operation run with clock values 1, 2. -/
theorem relative_ts_non_decreasing_witness :
    List.Chain' (· ≤ ·)
      (([Op.logState 1 "CODING", Op.logClarity 2 Json.null]).filterMap opNow)
    ∧ List.Chain' (· ≤ ·)
        (tsListOf (runOps (initLogger "s0" "c0" 0)
          [Op.logState 1 "CODING", Op.logClarity 2 Json.null])) :=
  ⟨by norm_num [List.filterMap_cons, opNow, List.chain'_cons],
    relative_ts_non_decreasing [Op.logState 1 "CODING", Op.logClarity 2 Json.null]
      "s0" "c0" 0
      (by norm_num [List.filterMap_cons, opNow, List.chain'_cons])⟩

/-- C5: an append's success flag is exactly the storage oracle's answer — it
never depends on the payload, which is opaque; a failed flush leaves the
in-memory record valid with the event retained; and the next successful
mutation re-persists the full current record. -/
theorem append_failure_semantics (ok : Bool) (now now2 : ℚ)
    (state event_type event_type2 : String) (clarity_data payload payload2 : Json)
    (s : LoggerState) :
    ((log_event ok now event_type payload s).2 = ok
      ∧ (log_state ok now state s).2 = ok
      ∧ (log_clarity ok now clarity_data s).2 = ok)
    ∧ (log_event false now event_type payload s).1.data
        = { s.data with events := s.data.events
              ++ [⟨round2 (now - s.data.started_at), event_type, payload⟩] }
    ∧ (log_event true now2 event_type2 payload2
          ((log_event false now event_type payload s).1)).1.disk
        = some (serialize
            (log_event true now2 event_type2 payload2
              ((log_event false now event_type payload s).1)).1.data) := by
  refine ⟨⟨?_, ?_, ?_⟩, rfl, rfl⟩ <;> cases ok <;> rfl

/-- C6 counterexample: persistence is an in-place truncate-then-write
(`open(path, "w")` then `json.dump`), not an atomic replace: while a flush
of a record is in progress the disk passes through a state holding no
complete record, which a concurrent reader can observe, and such a read
yields nothing instead of the record. -/
theorem flush_truncation_observable :
    (none : Option Json) ∈ flushTrace ⟨"sid0", "cand0", 0, [], none, ⟨0, 0, "PENDING"⟩⟩
    ∧ readDisk (none : Option Json) = none
    ∧ readDisk (some (serialize ⟨"sid0", "cand0", 0, [], none, ⟨0, 0, "PENDING"⟩⟩))
        = some ⟨"sid0", "cand0", 0, [], none, ⟨0, 0, "PENDING"⟩⟩ :=
  ⟨by simp [flushTrace], rfl, by simp [readDisk, deserialize_serialize]⟩

/-- C6 (amended): serialization round-trips (`deserialize ∘ serialize = some`),
and after every sequence of mutating operations whose flushes succeed, the
persisted record reloads to exactly the current in-memory `SessionData`;
persistence rewrites the full record, but in place rather than atomically,
so the no-torn-snapshot guarantee holds only for reads between mutations. -/
theorem persisted_record_roundtrip (ops : List Op)
    (session_id candidate_id : String) (t0 : ℚ) :
    (∀ d, deserialize (serialize d) = some d)
    ∧ (runOps (initLogger session_id candidate_id t0) ops).disk
        = some (serialize (runOps (initLogger session_id candidate_id t0) ops).data)
    ∧ readDisk (runOps (initLogger session_id candidate_id t0) ops).disk
        = some (runOps (initLogger session_id candidate_id t0) ops).data := by
  have hdisk := runOps_disk_serialized ops (initLogger session_id candidate_id t0) rfl
  exact ⟨deserialize_serialize, hdisk,
    by rw [hdisk]; simp [readDisk, deserialize_serialize]⟩

/-- C7: `finish_session` sets `ended_at` to the current time and overwrites
`summary`; a second call raises no error (it fails only if its flush does)
and silently overwrites `ended_at` and `summary` with the new values,
leaving `session_id`, `candidate_id`, `started_at` and `events` unchanged. -/
theorem finish_session_overwrites (ok1 ok2 : Bool) (now1 now2 : ℚ)
    (hard1 soft1 hard2 soft2 : ℤ) (v1 v2 : String) (s : LoggerState) :
    let t1 := (finish_session ok1 now1 hard1 soft1 v1 s).1
    let t2 := (finish_session ok2 now2 hard2 soft2 v2 t1).1
    (finish_session ok2 now2 hard2 soft2 v2 t1).2 = ok2
    ∧ t2.data.ended_at = some now2
    ∧ t2.data.summary = ⟨hard2, soft2, v2⟩
    ∧ t2.data.session_id = s.data.session_id
    ∧ t2.data.candidate_id = s.data.candidate_id
    ∧ t2.data.started_at = s.data.started_at
    ∧ t2.data.events = s.data.events := by
  intro t1 t2
  cases ok1 <;> cases ok2 <;>
    exact ⟨rfl, rfl, rfl, rfl, rfl, rfl, rfl⟩

/-- C8: the verdict is PENDING from creation through any sequence of
non-finalizing operations; finishing with the orchestrator's verdict
(`"PASS" if hard_score >= 60 else "FAIL"`, from `src/main.py`) makes it
PASS or FAIL and never PENDING, and no subsequent append or rename
operation changes it. -/
theorem verdict_lifecycle (ops ops2 : List Op) (session_id candidate_id : String)
    (t0 now : ℚ) (hard soft : ℤ)
    (h1 : ops.all (fun op => !(opIsFinish op)) = true)
    (h2 : ops2.all (fun op => !(opIsFinish op)) = true) :
    (runOps (initLogger session_id candidate_id t0) ops).data.summary.verdict
      = "PENDING"
    ∧ ((finish_session true now hard soft (mainVerdict hard)
          (runOps (initLogger session_id candidate_id t0) ops)).1.data.summary.verdict
            = "PASS"
        ∨ (finish_session true now hard soft (mainVerdict hard)
            (runOps (initLogger session_id candidate_id t0) ops)).1.data.summary.verdict
              = "FAIL")
    ∧ (finish_session true now hard soft (mainVerdict hard)
          (runOps (initLogger session_id candidate_id t0) ops)).1.data.summary.verdict
        ≠ "PENDING"
    ∧ (runOps ((finish_session true now hard soft (mainVerdict hard)
          (runOps (initLogger session_id candidate_id t0) ops)).1) ops2).data.summary.verdict
        = (finish_session true now hard soft (mainVerdict hard)
            (runOps (initLogger session_id candidate_id t0) ops)).1.data.summary.verdict := by
  have hfin : ∀ s' : LoggerState,
      (finish_session true now hard soft (mainVerdict hard) s').1.data.summary.verdict
        = mainVerdict hard := fun s' => rfl
  refine ⟨?_, ?_, ?_, ?_⟩
  · rw [runOps_summary_of_no_finish ops _ h1]; rfl
  · rcases le_or_lt 60 hard with h | h
    · left; rw [hfin, mainVerdict, if_pos h]
    · right; rw [hfin, mainVerdict, if_neg (by omega)]
  · rw [hfin, mainVerdict]
    split_ifs <;> decide
  · rw [runOps_summary_of_no_finish ops2 _ h2]

/-- Witness for C8 at a concrete run: one STATE append before finishing
with hard score 75, one rename after. -/
theorem verdict_lifecycle_witness :
    ([Op.logState 1 "CODING"].all (fun op => !(opIsFinish op)) = true
      ∧ [Op.updateCandidateId "alice"].all (fun op => !(opIsFinish op)) = true)
    ∧ ((runOps (initLogger "s1" "c1" 0) [Op.logState 1 "CODING"]).data.summary.verdict
        = "PENDING"
      ∧ ((finish_session true 2 75 80 (mainVerdict 75)
            (runOps (initLogger "s1" "c1" 0) [Op.logState 1 "CODING"])).1.data.summary.verdict
              = "PASS"
          ∨ (finish_session true 2 75 80 (mainVerdict 75)
              (runOps (initLogger "s1" "c1" 0) [Op.logState 1 "CODING"])).1.data.summary.verdict
                = "FAIL")
      ∧ (finish_session true 2 75 80 (mainVerdict 75)
            (runOps (initLogger "s1" "c1" 0) [Op.logState 1 "CODING"])).1.data.summary.verdict
          ≠ "PENDING"
      ∧ (runOps ((finish_session true 2 75 80 (mainVerdict 75)
            (runOps (initLogger "s1" "c1" 0) [Op.logState 1 "CODING"])).1)
            [Op.updateCandidateId "alice"]).data.summary.verdict
          = (finish_session true 2 75 80 (mainVerdict 75)
              (runOps (initLogger "s1" "c1" 0) [Op.logState 1 "CODING"])).1.data.summary.verdict) :=
  ⟨⟨by decide, by decide⟩,
    verdict_lifecycle [Op.logState 1 "CODING"] [Op.updateCandidateId "alice"]
      "s1" "c1" 0 2 75 80 (by decide) (by decide)⟩

/-- C10: every append operation (`log_state`, `log_clarity`, `log_event`)
records the event with `ts = round(now - started_at, 2)`, so every stored
relative timestamp is an integer number of hundredths of a second. -/
theorem append_ts_two_decimals (ok : Bool) (now : ℚ) (state event_type : String)
    (clarity_data payload : Json) (s : LoggerState) :
    ((log_state ok now state s).1.data.events
        = s.data.events
          ++ [⟨round2 (now - s.data.started_at), "STATE",
                Json.obj [("state", Json.str state)]⟩])
    ∧ ((log_clarity ok now clarity_data s).1.data.events
        = s.data.events
          ++ [⟨round2 (now - s.data.started_at), "CLARITY", clarity_data⟩])
    ∧ ((log_event ok now event_type payload s).1.data.events
        = s.data.events
          ++ [⟨round2 (now - s.data.started_at), event_type, payload⟩])
    ∧ ∃ k : ℤ, round2 (now - s.data.started_at) * 100 = (k : ℚ) := by
  refine ⟨?_, ?_, ?_, round2_hundredths _⟩ <;> cases ok <;> rfl

end IMPAD
